import Mathlib

/-
Verification development for the LowBandwidth.Online adaptive AI client
(package ai, file ai.go).  The Go source is shallowly embedded: decoded
JSON values become an inductive type, the HTTP network becomes an oracle
function from requests to optional responses (none models a transport
error), and the mutable MCPClient receiver becomes explicit state passing.
Every operation additionally returns the list of HTTP requests it issued,
so that ordering and header claims can be stated about traces.
-/

namespace LBO

/-- Decoded JSON values, the shallow embedding of Go interface-typed values
produced by json.Unmarshal.  An obj field list models a Go map that holds
no duplicate keys. -/
inductive Json where
  | null
  | bool (b : Bool)
  | num (n : Int)
  | str (s : String)
  | arr (xs : List Json)
  | obj (fields : List (String × Json))

/-- Field lookup in a decoded JSON object, as Go map indexing. -/
def jLookup (m : List (String × Json)) (k : String) : Option Json :=
  (m.find? (fun p => p.1 = k)).map (fun p => p.2)

/-- The seven recognized text field names, in the priority order of
extractTextFromResult in ai.go. -/
def textFields : List String :=
  ["text", "response", "answer", "result", "output", "message", "content"]

/-- The Go checked type assertion plus non-emptiness test of the extractor
loop: a looked-up value counts only when it is a non-empty string. -/
def asNonEmptyString : Option Json → Option String
  | some (.str t) => if t = "" then none else some t
  | _ => none

/-- The loop of extractTextFromResult over the candidate field names: the
first field that is present as a non-empty string wins. -/
def findNonEmptyStringField (m : List (String × Json)) : List String → Option String
  | [] => none
  | f :: fs =>
    match asNonEmptyString (jLookup m f) with
    | some t => some t
    | none => findNonEmptyStringField m fs

/-- One hex digit, lowercase, as used by the Go json encoder in u-escapes. -/
def hexDigitLower (n : Nat) : Char :=
  if n < 10 then Char.ofNat (48 + n) else Char.ofNat (87 + n)

/-- A four-digit u-escape of a code point, as the Go json encoder emits. -/
def uEscape (n : Nat) : String :=
  "\\u" ++ String.mk [hexDigitLower (n / 4096 % 16), hexDigitLower (n / 256 % 16),
                      hexDigitLower (n / 16 % 16), hexDigitLower (n % 16)]

/-- Escaping of one character inside a JSON string literal, following the
Go encoding/json encoder with its default HTML escaping. -/
def escapeChar (c : Char) : String :=
  if c = '"' then "\\\""
  else if c = '\\' then "\\\\"
  else if c = '\n' then "\\n"
  else if c = '\r' then "\\r"
  else if c = '\t' then "\\t"
  else if c = '<' ∨ c = '>' ∨ c = '&' then uEscape c.toNat
  else if c.toNat < 32 then uEscape c.toNat
  else if c.toNat = 8232 ∨ c.toNat = 8233 then uEscape c.toNat
  else String.singleton c

/-- A JSON string literal with quotes, per the Go encoder. -/
def quoteJson (s : String) : String :=
  "\"" ++ s.data.foldl (fun acc c => acc ++ escapeChar c) "" ++ "\""

/-- Indentation for MarshalIndent with prefix empty and indent two spaces. -/
def indentOf (n : Nat) : String := String.join (List.replicate n "  ")

/-- Insertion of a rendered object field into a key-sorted list: the Go json
encoder emits map keys in sorted order. -/
def insertPair (p : String × String) : List (String × String) → List (String × String)
  | [] => [p]
  | q :: qs => if p.1 < q.1 then p :: q :: qs else q :: insertPair p qs

/-- Key-sorting of rendered object fields. -/
def sortPairs (l : List (String × String)) : List (String × String) :=
  l.foldr insertPair []

mutual

/-- The shallow embedding of Go json.MarshalIndent(v, "", "  ") at a given
indentation depth. -/
def marshalAux : Json → Nat → String
  | .null, _ => "null"
  | .bool true, _ => "true"
  | .bool false, _ => "false"
  | .num n, _ => toString n
  | .str s, _ => quoteJson s
  | .arr [], _ => "[]"
  | .arr (x :: xs), d =>
    "[\n" ++ String.intercalate ",\n"
      ((marshalArrItems (x :: xs) (d + 1)).map (fun s => indentOf (d + 1) ++ s))
      ++ "\n" ++ indentOf d ++ "]"
  | .obj [], _ => "\x7b\x7d"
  | .obj (f :: fs), d =>
    "\x7b\n" ++ String.intercalate ",\n"
      ((sortPairs (marshalObjItems (f :: fs) (d + 1))).map
        (fun p => indentOf (d + 1) ++ quoteJson p.1 ++ ": " ++ p.2))
      ++ "\n" ++ indentOf d ++ "\x7d"

/-- Rendered array items at a given depth. -/
def marshalArrItems : List Json → Nat → List String
  | [], _ => []
  | x :: xs, d => marshalAux x d :: marshalArrItems xs d

/-- Rendered object fields (key, rendered value) at a given depth. -/
def marshalObjItems : List (String × Json) → Nat → List (String × String)
  | [], _ => []
  | (k, v) :: fs, d => (k, marshalAux v d) :: marshalObjItems fs d

end

/-- json.MarshalIndent(v, "", "  ") from the top level, as used by the
fallback branch of extractTextFromResult. -/
def marshalIndent (v : Json) : String := marshalAux v 0

/-- The shallow embedding of extractTextFromResult in ai.go: first the seven
recognized fields as non-empty strings, then content[0].text (accepted even
when empty), then the pretty-printed JSON of the whole value. -/
def extractTextFromResult (result : Json) : String :=
  match result with
  | .obj m =>
    match findNonEmptyStringField m textFields with
    | some t => t
    | none =>
      match jLookup m "content" with
      | some (.arr (c0 :: _)) =>
        match c0 with
        | .obj cm =>
          match jLookup cm "text" with
          | some (.str t) => t
          | _ => marshalIndent result
        | _ => marshalIndent result
      | _ => marshalIndent result
  | _ => marshalIndent result

/-- An HTTP request as built by the client: method, full URL (base URL plus
endpoint path, including any query string), the decoded request body (none
for bodiless GET requests), and the headers set on the request. -/
structure HttpRequest where
  method : String
  url : String
  body : Option Json
  headers : List (String × String)

/-- An HTTP response as seen by the client: status code, raw body string,
the result of decoding the body as JSON (none when the body is not valid
JSON), response headers and cookies.  bodyJson is the environment-supplied
decoding of body, matching what json.Unmarshal yields on the body bytes. -/
structure Response where
  status : Nat
  body : String
  bodyJson : Option Json
  headers : List (String × String)
  cookies : List (String × String)

/-- The network environment: each request either gets a response or fails
with a transport error (none), as http.Client.Do does. -/
def Oracle : Type := HttpRequest → Option Response

/-- resp.Header.Get: the value of the first header with the given name, or
the empty string when absent. -/
def headerGet (hs : List (String × String)) (k : String) : String :=
  match hs.find? (fun p => p.1 = k) with
  | some p => p.2
  | none => ""

/-- The MCPClient state from ai.go: base URL, next request id, session
token.  The http.Client with its 30-second timeout is part of the transport
environment and carries no modelled state. -/
structure MCPClient where
  BaseURL : String
  nextID : Int
  sessionID : String
deriving DecidableEq

/-- NewMCPClient from ai.go: fresh client with next id 1 and no session. -/
def NewMCPClient (baseURL : String) : MCPClient :=
  { BaseURL := baseURL, nextID := 1, sessionID := "" }

/-- Wrap-around of a 64-bit signed integer, the overflow behaviour of the
Go int counter. -/
def wrapInt64 (n : Int) : Int := (n + 2 ^ 63) % 2 ^ 64 - 2 ^ 63

/-- getNextID from ai.go: returns the current id and increments the
counter. -/
def getNextID (c : MCPClient) : Int × MCPClient :=
  (c.nextID, { c with nextID := wrapInt64 (c.nextID + 1) })

/-- A JSON-RPC request envelope (MCPRequest in ai.go). -/
structure MCPRequest where
  jsonrpc : String
  id : Int
  method : String
  params : Json

/-- The JSON encoding of an MCPRequest, as json.Marshal produces from the
struct field order. -/
def encodeMCPRequest (r : MCPRequest) : Json :=
  .obj [("jsonrpc", .str r.jsonrpc), ("id", .num r.id),
        ("method", .str r.method), ("params", r.params)]

/-- A JSON-RPC error object (MCPError in ai.go); the optional Data field
plays no role in the client logic and is not modelled. -/
structure MCPError where
  code : Int
  message : String

/-- A decoded JSON-RPC response envelope (MCPResponse in ai.go).  A missing
result field is the nil interface, which behaves as JSON null in every use
the client makes of it, so it is embedded as Json.null. -/
structure MCPResponse where
  result : Json
  error : Option MCPError

/-- Decoding of a JSON object field expected to hold a string: absent gives
the zero value, a string gives itself, any other shape is an unmarshal
error (none). -/
def decodeStringField (m : List (String × Json)) (k : String) : Option String :=
  match jLookup m k with
  | none => some ""
  | some (.str s) => some s
  | some _ => none

/-- Decoding of a JSON object field expected to hold an integer. -/
def decodeIntField (m : List (String × Json)) (k : String) : Option Int :=
  match jLookup m k with
  | none => some 0
  | some (.num n) => some n
  | some _ => none

/-- json.Unmarshal of a response body into MCPResponse: the body must be an
object (or null); the jsonrpc and id fields must have the right shape when
present; error must be null or an object with well-shaped code and
message. -/
def decodeMCPResponse : Json → Option MCPResponse
  | .null => some { result := .null, error := none }
  | .obj m => do
    let _ ← decodeStringField m "jsonrpc"
    let _ ← decodeIntField m "id"
    let e ← match jLookup m "error" with
      | none => some none
      | some .null => some none
      | some (.obj em) => do
        let c ← decodeIntField em "code"
        let msg ← decodeStringField em "message"
        pure (some { code := c, message := msg })
      | some _ => none
    pure { result := (jLookup m "result").getD .null, error := e }
  | _ => none

/-- json.Unmarshal of a response body into SessionResponse, returning the
sessionId field (zero value when absent).  The status field must also be
well-shaped for the unmarshal to succeed. -/
def decodeSessionResponse : Json → Option String
  | .null => some ""
  | .obj m => do
    let sid ← decodeStringField m "sessionId"
    let _ ← decodeStringField m "status"
    pure sid
  | _ => none

/-- The two headers set on every JSON POST (ai.go sets Content-Type and
Accept on session, initialization, RPC and direct-API requests). -/
def baseHeaders : List (String × String) :=
  [("Content-Type", "application/json"), ("Accept", "application/json")]

/-- The session headers attached once a session exists: both X-Session-ID
and Session-ID carry the token (ai.go lines 290-293 and 464-467). -/
def sessionHeaders (sid : String) : List (String × String) :=
  if sid = "" then [] else [("X-Session-ID", sid), ("Session-ID", sid)]

/-- The cookie scan of ai.go: the first cookie named session_id or
sessionId, if any. -/
def cookieSession (cookies : List (String × String)) : Option String :=
  (cookies.find? (fun p => p.1 = "session_id" ∨ p.1 = "sessionId")).map (fun p => p.2)

/-- The fixed initialization parameters sent by Initialize and
initializeWithSession in ai.go. -/
def initParams : Json :=
  .obj [("protocolVersion", .str "2024-11-05"),
        ("capabilities", .obj [("tools", .obj [])]),
        ("clientInfo", .obj [("name", .str "golang-mcp-client"),
                             ("version", .str "1.0.0")])]

/-- Result of an operation: a value, a Go error, or a crash of the whole
program (a Go runtime panic from a failed type assertion). -/
inductive Outcome (α : Type) where
  | ok (a : α)
  | error (msg : String)
  | crash
deriving DecidableEq

/-- The four session-creation endpoints tried by CreateSession, in order. -/
def sessionEndpoints : List String :=
  ["/session", "/api/session", "/sessions", "/create-session"]

/-- The session-creation request for one endpoint: an empty JSON POST with
the two base headers (no session headers exist yet at this point). -/
def mkSessionRequest (c : MCPClient) (endpoint : String) : HttpRequest :=
  { method := "POST", url := c.BaseURL ++ endpoint,
    body := some (.obj []), headers := baseHeaders }

/-- The body-derived session token: the body parses as a SessionResponse
and its sessionId field is non-empty. -/
def bodyToken (resp : Response) : Option String :=
  match resp.bodyJson.bind decodeSessionResponse with
  | some sid => if sid = "" then none else some sid
  | none => none

/-- The token extracted from one session-creation response, following the
CreateSession source order: only on status 200 or 201, first the body,
then the X-Session-ID header, then the session cookie. -/
def sessionFromResponse (resp : Response) : Option String :=
  if resp.status = 200 ∨ resp.status = 201 then
    match bodyToken resp with
    | some sid => some sid
    | none =>
      if headerGet resp.headers "X-Session-ID" = "" then cookieSession resp.cookies
      else some (headerGet resp.headers "X-Session-ID")
  else none

/-- The endpoint loop of CreateSession: issue the POST, move on after a
transport error or a token-free response, stop at the first token. -/
def createSessionLoop (oracle : Oracle) (c : MCPClient) :
    List String → Option String × List HttpRequest
  | [] => (none, [])
  | e :: rest =>
    let req := mkSessionRequest c e
    match oracle req with
    | none =>
      let (r, t) := createSessionLoop oracle c rest
      (r, req :: t)
    | some resp =>
      match sessionFromResponse resp with
      | some sid => (some sid, [req])
      | none =>
        let (r, t) := createSessionLoop oracle c rest
        (r, req :: t)

/-- The initialization request of initializeWithSession: a POST of the
fixed initialization parameters to the /initialize path. -/
def initRequest (c : MCPClient) : HttpRequest :=
  { method := "POST", url := c.BaseURL ++ "/initialize",
    body := some initParams, headers := baseHeaders }

/-- initializeWithSession from ai.go: one POST to /initialize, then the
X-Session-ID header and the session cookies of the response are consulted;
the HTTP status code is never checked. -/
def initWithSession (oracle : Oracle) (c : MCPClient) :
    Outcome Unit × MCPClient × List HttpRequest :=
  let req := initRequest c
  match oracle req with
  | none => (.error "failed to send initialization request", c, [req])
  | some resp =>
    if headerGet resp.headers "X-Session-ID" = "" then
      match cookieSession resp.cookies with
      | some v => (.ok (), { c with sessionID := v }, [req])
      | none => (.error "could not establish session", c, [req])
    else
      (.ok (), { c with sessionID := headerGet resp.headers "X-Session-ID" }, [req])

/-- CreateSession from ai.go: the endpoint loop, then the initialization
fallback when no endpoint yields a token. -/
def CreateSession (oracle : Oracle) (c : MCPClient) :
    Outcome Unit × MCPClient × List HttpRequest :=
  match createSessionLoop oracle c sessionEndpoints with
  | (some sid, t) => (.ok (), { c with sessionID := sid }, t)
  | (none, t) =>
    let (r, c1, t1) := initWithSession oracle c
    (r, c1, t ++ t1)

/-- The JSON-RPC POST built by sendRequest: the envelope to the base URL
itself, with base headers plus both session headers once a session
exists. -/
def mkRPCRequest (c : MCPClient) (r : MCPRequest) : HttpRequest :=
  { method := "POST", url := c.BaseURL,
    body := some (encodeMCPRequest r),
    headers := baseHeaders ++ sessionHeaders c.sessionID }

/-- The result of one JSON-RPC exchange: transport errors, non-200
statuses and undecodable bodies are errors, per sendRequest in ai.go. -/
def rpcResult : Option Response → Outcome MCPResponse
  | none => .error "failed to send request"
  | some resp =>
    if resp.status = 200 then
      match resp.bodyJson with
      | none => .error "failed to unmarshal response"
      | some j =>
        match decodeMCPResponse j with
        | none => .error "failed to unmarshal response"
        | some mr => .ok mr
    else
      .error ("HTTP error " ++ toString resp.status ++ ": " ++ resp.body)

/-- sendRequest from ai.go: exactly one POST of the envelope. -/
def sendRequest (oracle : Oracle) (c : MCPClient) (r : MCPRequest) :
    Outcome MCPResponse × List HttpRequest :=
  (rpcResult (oracle (mkRPCRequest c r)), [mkRPCRequest c r])

/-- Initialize from ai.go: best-effort session creation (its error is
logged and swallowed), then the JSON-RPC initialize method; fails when the
envelope carries an error object. -/
def initConnection (oracle : Oracle) (c : MCPClient) :
    Outcome Unit × MCPClient × List HttpRequest :=
  let (_, c1, t1) := CreateSession oracle c
  let (id, c2) := getNextID c1
  let (rr, t2) := sendRequest oracle c2 { jsonrpc := "2.0", id := id, method := "initialize", params := initParams }
  match rr with
  | .error msg => (.error msg, c2, t1 ++ t2)
  | .crash => (.crash, c2, t1 ++ t2)
  | .ok r =>
    match r.error with
    | some e => (.error ("initialization failed: " ++ e.message), c2, t1 ++ t2)
    | none => (.ok (), c2, t1 ++ t2)

/-- ListTools from ai.go: the tools/list method; the result must be an
object whose tools field is an array. -/
def ListTools (oracle : Oracle) (c : MCPClient) :
    Outcome (List Json) × MCPClient × List HttpRequest :=
  let (id, c1) := getNextID c
  let (rr, t) := sendRequest oracle c1 { jsonrpc := "2.0", id := id, method := "tools/list", params := .obj [] }
  match rr with
  | .error msg => (.error msg, c1, t)
  | .crash => (.crash, c1, t)
  | .ok r =>
    match r.error with
    | some e => (.error ("MCP error " ++ toString e.code ++ ": " ++ e.message), c1, t)
    | none =>
      match r.result with
      | .obj m =>
        match jLookup m "tools" with
        | some (.arr tools) => (.ok tools, c1, t)
        | _ => (.error "unexpected response format", c1, t)
      | _ => (.error "unexpected response format", c1, t)

/-- CallTool from ai.go: the tools/call method with name and arguments;
returns the raw result value (the nil interface embeds as null). -/
def CallTool (oracle : Oracle) (c : MCPClient) (toolName : String) (arguments : Json) :
    Outcome Json × MCPClient × List HttpRequest :=
  let (id, c1) := getNextID c
  let (rr, t) := sendRequest oracle c1
    { jsonrpc := "2.0", id := id, method := "tools/call",
      params := .obj [("name", .str toolName), ("arguments", arguments)] }
  match rr with
  | .error msg => (.error msg, c1, t)
  | .crash => (.crash, c1, t)
  | .ok r =>
    match r.error with
    | some e => (.error ("MCP error " ++ toString e.code ++ ": " ++ e.message), c1, t)
    | none => (.ok r.result, c1, t)

/-- The six direct-API endpoints tried by tryDirectAPI, in order. -/
def directEndpoints : List String :=
  ["/api/chat", "/chat", "/api/completion", "/completion", "/api/generate", "/generate"]

/-- The direct-API request body: the prompt and model under four redundant
key names (prompt, model, query, input). -/
def directRequestBody (prompt model : String) : Json :=
  .obj [("prompt", .str prompt), ("model", .str model),
        ("query", .str prompt), ("input", .str prompt)]

/-- The POST built for one direct-API endpoint, with base headers plus both
session headers once a session exists. -/
def mkDirectRequest (c : MCPClient) (prompt model endpoint : String) : HttpRequest :=
  { method := "POST", url := c.BaseURL ++ endpoint,
    body := some (directRequestBody prompt model),
    headers := baseHeaders ++ sessionHeaders c.sessionID }

/-- The answer taken from a status-200 direct-API response: the body is
parsed as a JSON object and passed to the extractor; the raw body string
is the fallback when parsing fails or extraction comes back empty. -/
def directSuccessResult (resp : Response) : Outcome String :=
  match resp.bodyJson with
  | some (.obj m) =>
    let text := extractTextFromResult (.obj m)
    if text = "" then .ok resp.body else .ok text
  | _ => .ok resp.body

/-- The endpoint loop of tryDirectAPI: the first status-200 response wins;
transport errors and other statuses move to the next endpoint. -/
def tryDirectLoop (oracle : Oracle) (c : MCPClient) (prompt model : String) :
    List String → Outcome String × List HttpRequest
  | [] => (.error "direct API calls failed", [])
  | e :: rest =>
    let req := mkDirectRequest c prompt model e
    match oracle req with
    | none =>
      let (r, t) := tryDirectLoop oracle c prompt model rest
      (r, req :: t)
    | some resp =>
      if resp.status = 200 then (directSuccessResult resp, [req])
      else
        let (r, t) := tryDirectLoop oracle c prompt model rest
        (r, req :: t)

/-- tryDirectAPI from ai.go. -/
def tryDirectAPI (oracle : Oracle) (c : MCPClient) (prompt model : String) :
    Outcome String × List HttpRequest :=
  tryDirectLoop oracle c prompt model directEndpoints

/-- tryMCPFlow from ai.go: initialize, list tools, call the first tool,
extract text.  The two unchecked Go type assertions on the first tool
descriptor (tools[0] as a map, then its name field as a string) abort the
program when they fail; that is the crash outcome. -/
def tryMCPFlow (oracle : Oracle) (c : MCPClient) (prompt model : String) :
    Outcome String × MCPClient × List HttpRequest :=
  let (ri, c1, t1) := initConnection oracle c
  match ri with
  | .error msg => (.error ("failed to initialize MCP connection: " ++ msg), c1, t1)
  | .crash => (.crash, c1, t1)
  | .ok _ =>
    let (rt, c2, t2) := ListTools oracle c1
    match rt with
    | .error msg => (.error ("failed to list tools: " ++ msg), c2, t1 ++ t2)
    | .crash => (.crash, c2, t1 ++ t2)
    | .ok tools =>
      match tools with
      | [] => (.error "no tools available", c2, t1 ++ t2)
      | .obj toolMap :: _ =>
        match jLookup toolMap "name" with
        | some (.str toolName) =>
          let arguments : Json := .obj [("prompt", .str prompt), ("model", .str model)]
          let (rc, c3, t3) := CallTool oracle c2 toolName arguments
          match rc with
          | .error msg => (.error msg, c3, t1 ++ t2 ++ t3)
          | .crash => (.crash, c3, t1 ++ t2 ++ t3)
          | .ok result => (.ok (extractTextFromResult result), c3, t1 ++ t2 ++ t3)
        | _ => (.crash, c2, t1 ++ t2)
      | _ :: _ => (.crash, c2, t1 ++ t2)

/-- One byte of the UTF-8 encoding as url.QueryEscape emits it: unreserved
bytes stand for themselves, a space becomes a plus, the rest is
percent-encoded with uppercase hex digits. -/
def queryEscapeByte (b : Nat) : String :=
  if (48 ≤ b ∧ b ≤ 57) ∨ (65 ≤ b ∧ b ≤ 90) ∨ (97 ≤ b ∧ b ≤ 122)
      ∨ b = 45 ∨ b = 46 ∨ b = 95 ∨ b = 126 then
    String.singleton (Char.ofNat b)
  else if b = 32 then "+"
  else
    "%" ++ String.mk [if b / 16 < 10 then Char.ofNat (48 + b / 16) else Char.ofNat (55 + b / 16),
                      if b % 16 < 10 then Char.ofNat (48 + b % 16) else Char.ofNat (55 + b % 16)]

/-- The UTF-8 bytes of one code point. -/
def utf8Bytes (n : Nat) : List Nat :=
  if n < 128 then [n]
  else if n < 2048 then [192 + n / 64, 128 + n % 64]
  else if n < 65536 then [224 + n / 4096, 128 + n / 64 % 64, 128 + n % 64]
  else [240 + n / 262144, 128 + n / 4096 % 64, 128 + n / 64 % 64, 128 + n % 64]

/-- url.QueryEscape from the Go standard library. -/
def queryEscape (s : String) : String :=
  s.data.foldl (fun acc c => acc ++ String.join ((utf8Bytes c.toNat).map queryEscapeByte)) ""

/-- url.Values.Encode for the three query parameters added by
tryAlternativeEndpoints; Encode emits keys in sorted order, here the fixed
keys model, prompt, q. -/
def altQueryString (prompt model : String) : String :=
  "model=" ++ queryEscape model ++ "&prompt=" ++ queryEscape prompt ++ "&q=" ++ queryEscape prompt

/-- The three GET endpoints tried by tryAlternativeEndpoints, in order. -/
def altEndpoints (prompt model : String) : List String :=
  ["/?" ++ altQueryString prompt model,
   "/api?" ++ altQueryString prompt model,
   "/query?" ++ altQueryString prompt model]

/-- The GET built for one alternative endpoint: no body, no content
headers, and only the X-Session-ID header once a session exists (ai.go
lines 375-377 set no Session-ID header here). -/
def mkAltRequest (c : MCPClient) (endpoint : String) : HttpRequest :=
  { method := "GET", url := c.BaseURL ++ endpoint, body := none,
    headers := if c.sessionID = "" then [] else [("X-Session-ID", c.sessionID)] }

/-- The endpoint loop of tryAlternativeEndpoints: the first status-200
response wins, its raw body is the answer. -/
def tryAltLoop (oracle : Oracle) (c : MCPClient) :
    List String → Outcome String × List HttpRequest
  | [] => (.error "all approaches failed", [])
  | e :: rest =>
    let req := mkAltRequest c e
    match oracle req with
    | none =>
      let (r, t) := tryAltLoop oracle c rest
      (r, req :: t)
    | some resp =>
      if resp.status = 200 then (.ok resp.body, [req])
      else
        let (r, t) := tryAltLoop oracle c rest
        (r, req :: t)

/-- tryAlternativeEndpoints from ai.go. -/
def tryAlternativeEndpoints (oracle : Oracle) (c : MCPClient) (prompt model : String) :
    Outcome String × List HttpRequest :=
  tryAltLoop oracle c (altEndpoints prompt model)

/-- GatherInformation from ai.go: direct API probe, then the MCP flow, then
the alternative GET probe, short-circuiting on the first success.  The MCP
flow may mutate the client (ids, session token); the mutated client is the
one the GET probe then uses. -/
def GatherInformation (oracle : Oracle) (c : MCPClient) (prompt model : String) :
    Outcome String × MCPClient × List HttpRequest :=
  let (rd, td) := tryDirectAPI oracle c prompt model
  match rd with
  | .ok v => (.ok v, c, td)
  | .crash => (.crash, c, td)
  | .error _ =>
    let (rm, c1, tm) := tryMCPFlow oracle c prompt model
    match rm with
    | .ok v => (.ok v, c1, td ++ tm)
    | .crash => (.crash, c1, td ++ tm)
    | .error _ =>
      let (ra, ta) := tryAlternativeEndpoints oracle c1 prompt model
      (ra, c1, td ++ tm ++ ta)

/-- AIFunction from ai.go: reject an empty prompt or model before any
network activity, then run a fresh client against the fixed base URL. -/
def AIFunction (oracle : Oracle) (prompt model : String) :
    Outcome String × List HttpRequest :=
  if prompt = "" then (.error "prompt cannot be empty", [])
  else if model = "" then (.error "model cannot be empty", [])
  else
    let (r, _, t) := GatherInformation oracle (NewMCPClient "http://localhost:8080") prompt model
    (r, t)

/-- The ids produced by n successive getNextID calls on a client. -/
def idsAfter (c : MCPClient) : Nat → List Int
  | 0 => []
  | n + 1 =>
    let (i, c1) := getNextID c
    i :: idsAfter c1 n

/-- The JSON-RPC method name carried in a request body, used by concrete
test oracles to tell the protocol-flow requests apart. -/
def reqMethod (req : HttpRequest) : Option String :=
  match req.body with
  | some (.obj fs) =>
    match jLookup fs "method" with
    | some (.str m) => some m
    | _ => none
  | _ => none

/-- A 200 response whose body decodes to the given JSON value. -/
def jsonResp (j : Json) : Response :=
  { status := 200, body := "", bodyJson := some j, headers := [], cookies := [] }

/-- A plain 404 response. -/
def resp404 : Response :=
  { status := 404, body := "not found", bodyJson := none, headers := [], cookies := [] }

/-- Test gateway for the nested-content scenario: every non-RPC endpoint
returns 404, the RPC endpoint answers initialize, returns one tool named
weather from tools/list, and a tools/call result whose only payload is a
content array holding one item with an empty text string. -/
def oracleC10 : Oracle := fun req =>
  if req.url = "http://b" then
    match reqMethod req with
    | some "initialize" =>
      some (jsonResp (.obj [("jsonrpc", .str "2.0"), ("id", .num 1), ("result", .obj [])]))
    | some "tools/list" =>
      some (jsonResp (.obj [("jsonrpc", .str "2.0"), ("id", .num 2),
        ("result", .obj [("tools", .arr [.obj [("name", .str "weather")]])])]))
    | some "tools/call" =>
      some (jsonResp (.obj [("jsonrpc", .str "2.0"), ("id", .num 3),
        ("result", .obj [("content", .arr [.obj [("text", .str "")]])])]))
    | _ => none
  else some resp404

/-- A response that yields no direct-API hit: a transport error or a
non-200 status. -/
def noDirectHit : Option Response → Prop
  | none => True
  | some resp => resp.status ≠ 200

/-- A session-creation attempt that yields no token: a transport error or
a token-free response. -/
def noSessionToken : Option Response → Prop
  | none => True
  | some resp => sessionFromResponse resp = none

/-- A 200 response whose body is a JSON object with a non-empty answer
field. -/
def respC1 : Response :=
  { status := 200, body := "raw", bodyJson := some (.obj [("answer", .str "Sunny")]),
    headers := [], cookies := [] }

/-- Test gateway for the direct-API scenario: the first direct endpoint
returns 404, the second returns 200 with an answer field, nothing else is
reachable. -/
def oracleC1 : Oracle := fun req =>
  if req.url = "http://b/api/chat" then some resp404
  else if req.url = "http://b/chat" then some respC1
  else none

/-- The initialization response of the status-blind test gateway: an error
status 500 that nevertheless carries a session header. -/
def respC9 : Response :=
  { status := 500, body := "boom", bodyJson := none,
    headers := [("X-Session-ID", "tok500")], cookies := [] }

/-- Test gateway answering every request with the 500-with-header
response. -/
def oracleC9 : Oracle := fun _ => some respC9

/-- Test gateway for the nested-empty-text scenario used by the C10
end-to-end conjunct; identical to oracleC10 but its name keeps the claim
artifacts apart. -/
def oracleC10e : Oracle := oracleC10

/-- A gateway with the network fully down: every request is a transport
error.  Used by the strategy-order witness. -/
def oracleDown : Oracle := fun _ => none

/-- C2 counterexample: a client that has negotiated a session issues its
alternative-endpoint GET requests with the token in X-Session-ID only; the
Session-ID header is absent, so the token is not attached identically on
all subsequent requests. -/
def clientC2 : MCPClient := { BaseURL := "http://b", nextID := 4, sessionID := "tok" }

/-- The token-bearing response of the session-priority test gateway: a 200
response without a usable body whose X-Session-ID header carries H. -/
def respC8 : Response :=
  { status := 200, body := "ok", bodyJson := none,
    headers := [("X-Session-ID", "H")], cookies := [] }

/-- Test gateway for session negotiation: the first session endpoint is
unreachable, the second returns the 200-with-header response. -/
def oracleC8 : Oracle := fun req =>
  if req.url = "http://b/api/session" then some respC8 else none

/-- A JSON-RPC gateway whose tools/list result carries the given tools
value; session endpoints and the initialization path are unreachable, and
the initialize method succeeds. -/
def rpcToolsOracle (tools : Json) : Oracle := fun req =>
  match reqMethod req with
  | some "initialize" =>
    some (jsonResp (.obj [("jsonrpc", .str "2.0"), ("id", .num 1), ("result", .obj [])]))
  | some "tools/list" =>
    some (jsonResp (.obj [("jsonrpc", .str "2.0"), ("id", .num 2),
      ("result", .obj [("tools", tools)])]))
  | _ => none

/-- Gateway returning an empty tool list. -/
def oracleC3empty : Oracle := rpcToolsOracle (.arr [])

/-- Gateway returning a tool list whose first element is a number, not an
object. -/
def oracleC3num : Oracle := rpcToolsOracle (.arr [.num 5])

/-- Gateway returning a tool list whose first tool object has no name
field. -/
def oracleC3noname : Oracle := rpcToolsOracle (.arr [.obj [("title", .str "t")]])

lemma asNonEmptyString_eq_some {j : Option Json} {v : String} :
    asNonEmptyString j = some v ↔ j = some (.str v) ∧ v ≠ "" := by
  constructor
  · intro h
    match j with
    | none => simp [asNonEmptyString] at h
    | some .null => simp [asNonEmptyString] at h
    | some (.bool b) => simp [asNonEmptyString] at h
    | some (.num n) => simp [asNonEmptyString] at h
    | some (.arr xs) => simp [asNonEmptyString] at h
    | some (.obj fs) => simp [asNonEmptyString] at h
    | some (.str t) =>
      by_cases ht : t = ""
      · simp [asNonEmptyString, ht] at h
      · simp [asNonEmptyString, ht] at h
        subst h
        exact ⟨rfl, ht⟩
  · rintro ⟨rfl, h2⟩
    simp [asNonEmptyString, h2]

lemma findField_some {m : List (String × Json)} {fs : List String} {v : String}
    (h : findNonEmptyStringField m fs = some v) :
    ∃ f ∈ fs, jLookup m f = some (.str v) ∧ v ≠ "" := by
  induction fs with
  | nil => simp [findNonEmptyStringField] at h
  | cons f fs ih =>
    rw [findNonEmptyStringField] at h
    cases ha : asNonEmptyString (jLookup m f) with
    | some t =>
      rw [ha] at h
      obtain rfl : t = v := Option.some.inj h
      obtain ⟨h1, h2⟩ := asNonEmptyString_eq_some.mp ha
      exact ⟨f, List.mem_cons_self f fs, h1, h2⟩
    | none =>
      rw [ha] at h
      obtain ⟨g, hg, h1, h2⟩ := ih h
      exact ⟨g, List.mem_cons_of_mem f hg, h1, h2⟩

lemma findField_isSome {m : List (String × Json)} {fs : List String}
    (h : ∃ f ∈ fs, ∃ v, jLookup m f = some (.str v) ∧ v ≠ "") :
    ∃ v, findNonEmptyStringField m fs = some v := by
  induction fs with
  | nil => simp at h
  | cons f fs ih =>
    rw [findNonEmptyStringField]
    cases ha : asNonEmptyString (jLookup m f) with
    | some t => exact ⟨t, rfl⟩
    | none =>
      apply ih
      obtain ⟨g, hg, v, hv, hne⟩ := h
      rcases List.mem_cons.mp hg with rfl | hg2
      · exact absurd ha (by simp [asNonEmptyString_eq_some.mpr ⟨hv, hne⟩])
      · exact ⟨g, hg2, v, hv, hne⟩

lemma extract_of_find {m : List (String × Json)} {v : String}
    (h : findNonEmptyStringField m textFields = some v) :
    extractTextFromResult (.obj m) = v := by
  simp [extractTextFromResult, h]

lemma tryDirectLoop_skip (oracle : Oracle) (c : MCPClient) (prompt model : String)
    (pre es : List String)
    (h : ∀ e ∈ pre, noDirectHit (oracle (mkDirectRequest c prompt model e))) :
    tryDirectLoop oracle c prompt model (pre ++ es) =
      ((tryDirectLoop oracle c prompt model es).1,
       pre.map (mkDirectRequest c prompt model) ++ (tryDirectLoop oracle c prompt model es).2) := by
  induction pre with
  | nil => simp
  | cons e pre ih =>
    have he := h e (List.mem_cons_self e pre)
    have hrest := fun e2 h2 => h e2 (List.mem_cons_of_mem e h2)
    rw [List.cons_append, tryDirectLoop]
    cases ho : oracle (mkDirectRequest c prompt model e) with
    | none => simp [ih hrest]
    | some resp =>
      rw [ho] at he
      have hs : resp.status ≠ 200 := he
      simp [hs, ih hrest]

lemma tryDirectLoop_trace_mem (oracle : Oracle) (c : MCPClient) (prompt model : String)
    (es : List String) (q : HttpRequest)
    (hq : q ∈ (tryDirectLoop oracle c prompt model es).2) :
    ∃ e ∈ es, q = mkDirectRequest c prompt model e := by
  induction es with
  | nil => simp [tryDirectLoop] at hq
  | cons e rest ih =>
    rw [tryDirectLoop] at hq
    cases ho : oracle (mkDirectRequest c prompt model e) with
    | none =>
      rw [ho] at hq
      simp at hq
      rcases hq with rfl | hq2
      · exact ⟨e, List.mem_cons_self e rest, rfl⟩
      · obtain ⟨g, hg, hgq⟩ := ih hq2
        exact ⟨g, List.mem_cons_of_mem e hg, hgq⟩
    | some resp =>
      simp only [ho] at hq
      by_cases hs : resp.status = 200
      · rw [if_pos hs] at hq
        simp at hq
        exact ⟨e, List.mem_cons_self e rest, hq⟩
      · rw [if_neg hs] at hq
        simp at hq
        rcases hq with rfl | hq2
        · exact ⟨e, List.mem_cons_self e rest, rfl⟩
        · obtain ⟨g, hg, hgq⟩ := ih hq2
          exact ⟨g, List.mem_cons_of_mem e hg, hgq⟩
lemma gather_direct_ok {oracle : Oracle} {c : MCPClient} {prompt model v : String}
    {t : List HttpRequest}
    (h : tryDirectAPI oracle c prompt model = (.ok v, t)) :
    GatherInformation oracle c prompt model = (.ok v, c, t) := by
  rw [GatherInformation, h]

/-- C1: for every non-empty prompt and model, if the direct-API probe
reaches an endpoint that returns HTTP 200 with a JSON-object body holding
one of the seven recognized text fields as a non-empty string (all earlier
endpoints having produced no 200), then GatherInformation returns exactly
that field value (the highest-priority such field). -/
theorem direct_api_field_extraction
    (oracle : Oracle) (c : MCPClient) (prompt model : String)
    (_hp : prompt ≠ "") (_hm : model ≠ "")
    (pre post : List String) (e : String) (resp : Response) (m : List (String × Json))
    (hsplit : directEndpoints = pre ++ e :: post)
    (hpre : ∀ e2 ∈ pre, noDirectHit (oracle (mkDirectRequest c prompt model e2)))
    (hresp : oracle (mkDirectRequest c prompt model e) = some resp)
    (hstatus : resp.status = 200)
    (hbody : resp.bodyJson = some (.obj m))
    (hfield : ∃ f ∈ textFields, ∃ v, jLookup m f = some (.str v) ∧ v ≠ "") :
    ∃ f ∈ textFields, ∃ v, jLookup m f = some (.str v) ∧ v ≠ "" ∧
      (GatherInformation oracle c prompt model).1 = .ok v := by
  obtain ⟨v, hv⟩ := findField_isSome hfield
  obtain ⟨f, hfmem, hlook, hvne⟩ := findField_some hv
  have hex : extractTextFromResult (.obj m) = v := extract_of_find hv
  have hhit : tryDirectLoop oracle c prompt model (e :: post) =
      (.ok v, [mkDirectRequest c prompt model e]) := by
    rw [tryDirectLoop]
    simp only [hresp]
    rw [if_pos hstatus]
    simp only [directSuccessResult, hbody, hex]
    rw [if_neg hvne]
  have hdirect : tryDirectAPI oracle c prompt model =
      (.ok v, pre.map (mkDirectRequest c prompt model) ++ [mkDirectRequest c prompt model e]) := by
    rw [tryDirectAPI, hsplit, tryDirectLoop_skip oracle c prompt model pre (e :: post) hpre, hhit]
  exact ⟨f, hfmem, v, hlook, hvne, by rw [gather_direct_ok hdirect]⟩

/-- C1 witness: a concrete gateway where the second direct endpoint
answers 200 with a non-empty answer field. -/
theorem direct_api_field_extraction_witness :
    ∃ f ∈ textFields, ∃ v, jLookup [("answer", Json.str "Sunny")] f = some (.str v) ∧ v ≠ "" ∧
      (GatherInformation oracleC1 (NewMCPClient "http://b") "p" "m").1 = .ok v := by
  refine direct_api_field_extraction oracleC1 (NewMCPClient "http://b") "p" "m"
    (by decide) (by decide)
    ["/api/chat"] ["/api/completion", "/completion", "/api/generate", "/generate"] "/chat"
    respC1 [("answer", Json.str "Sunny")] rfl ?_ rfl rfl rfl
    ⟨"answer", by decide, "Sunny", rfl, by decide⟩
  intro e2 he2
  simp only [List.mem_singleton] at he2
  subst he2
  exact (by decide : (404 : Nat) ≠ 200)

/-- C6: AIFunction rejects an empty prompt (for any model) and an empty
model (for any prompt) with the corresponding configuration error, issuing
no network request at all: the returned trace is empty for every network
environment. -/
theorem aifunction_config_guard (oracle : Oracle) (prompt model : String)
    (h : prompt = "" ∨ model = "") :
    AIFunction oracle prompt model =
      (.error (if prompt = "" then "prompt cannot be empty" else "model cannot be empty"),
       []) := by
  rcases h with h | h
  · simp [AIFunction, h]
  · by_cases hp : prompt = "" <;> simp [AIFunction, hp, h]

/-- C6 witness: both empty-argument shapes at a concrete environment. -/
theorem aifunction_config_guard_witness :
    AIFunction (fun _ => none) "" "m" = (.error "prompt cannot be empty", []) ∧
    AIFunction (fun _ => none) "p" "" = (.error "model cannot be empty", []) := by
  constructor
  · simpa using aifunction_config_guard (fun _ => none) "" "m" (Or.inl rfl)
  · simpa using aifunction_config_guard (fun _ => none) "p" "" (Or.inr rfl)

/-- C9: initializeWithSession succeeds exactly when the response to the
initialization POST carries a non-empty X-Session-ID header or a
session_id/sessionId cookie; the HTTP status code plays no role, and on
success via the header the token is the header value. -/
theorem init_session_status_blind (oracle : Oracle) (c : MCPClient) (resp : Response)
    (hresp : oracle (initRequest c) = some resp) :
    ((initWithSession oracle c).1 = .ok () ↔
      (headerGet resp.headers "X-Session-ID" ≠ "" ∨ (cookieSession resp.cookies).isSome)) ∧
    (headerGet resp.headers "X-Session-ID" ≠ "" →
      (initWithSession oracle c).2.1.sessionID = headerGet resp.headers "X-Session-ID") := by
  rw [initWithSession]
  simp only [hresp]
  by_cases hh : headerGet resp.headers "X-Session-ID" = ""
  · rw [if_pos hh]
    cases hc : cookieSession resp.cookies <;> simp [hh, hc]
  · rw [if_neg hh]
    simp [hh]

/-- C9 witness: a session token is accepted from a status-500 response. -/
theorem init_session_status_blind_witness :
    respC9.status = 500 ∧
    (initWithSession oracleC9 (NewMCPClient "http://b")).1 = .ok () ∧
    (initWithSession oracleC9 (NewMCPClient "http://b")).2.1.sessionID = "tok500" := by
  have h := init_session_status_blind oracleC9 (NewMCPClient "http://b") respC9 rfl
  refine ⟨rfl, h.1.mpr (Or.inl (by decide)), ?_⟩
  have := h.2 (by decide)
  simpa using this

/-- C10: the nested content path of the extractor returns the text field
of the first content item even when that string is empty (unlike the seven
top-level fields, which must be non-empty), and consequently a tools/call
result holding only a content array with an empty text makes tryMCPFlow
and GatherInformation succeed with the empty string. -/
theorem nested_content_empty_text :
    (∀ (m cm : List (String × Json)) (rest : List Json) (t : String),
        findNonEmptyStringField m textFields = none →
        jLookup m "content" = some (.arr (.obj cm :: rest)) →
        jLookup cm "text" = some (.str t) →
        extractTextFromResult (.obj m) = t) ∧
    (tryMCPFlow oracleC10 (NewMCPClient "http://b") "p" "m").1 = .ok "" ∧
    (GatherInformation oracleC10e (NewMCPClient "http://b") "p" "m").1 = .ok "" := by
  refine ⟨?_, rfl, rfl⟩
  intro m cm rest t hf hc ht
  rw [extractTextFromResult]
  simp only [hf, hc, ht]

/-- C10 witness: the nested extraction at the concrete empty-text
payload. -/
theorem nested_content_empty_text_witness :
    extractTextFromResult (.obj [("content", .arr [.obj [("text", .str "")]])]) = "" :=
  nested_content_empty_text.1 [("content", .arr [.obj [("text", .str "")]])]
    [("text", .str "")] [] "" rfl rfl rfl

/-- C4 counterexample: the extractor is not idempotent.  On the object
with text field hi it returns hi, but applied to its own output (the
decoded JSON string hi) it returns the re-encoded quoted form, a different
string. -/
theorem extractor_not_idempotent :
    extractTextFromResult (.str (extractTextFromResult (.obj [("text", .str "hi")]))) ≠
      extractTextFromResult (.obj [("text", .str "hi")]) := by
  have h1 : extractTextFromResult (.obj [("text", .str "hi")]) = "hi" := rfl
  rw [h1]
  show marshalIndent (.str "hi") ≠ "hi"
  rw [marshalIndent, marshalAux]
  decide

/-- C4 amended: the extractor is total and degrades gracefully: for every
decoded JSON value the result is a recognized non-empty top-level field
value, or the text of the first nested content item, or the pretty-printed
JSON of the whole value; it never fails.  (Idempotence does not hold.) -/
theorem extractor_total_fallback (v : Json) :
    (∃ m, v = .obj m ∧ ∃ f ∈ textFields, ∃ s, jLookup m f = some (.str s) ∧ s ≠ "" ∧
        extractTextFromResult v = s) ∨
    (∃ m cm rest t, v = .obj m ∧ jLookup m "content" = some (.arr (.obj cm :: rest)) ∧
        jLookup cm "text" = some (.str t) ∧ extractTextFromResult v = t) ∨
    extractTextFromResult v = marshalIndent v := by
  rcases v with _ | b | n | s | xs | m
  · exact Or.inr (Or.inr rfl)
  · exact Or.inr (Or.inr rfl)
  · exact Or.inr (Or.inr rfl)
  · exact Or.inr (Or.inr rfl)
  · exact Or.inr (Or.inr rfl)
  cases hf : findNonEmptyStringField m textFields with
  | some t =>
    obtain ⟨f, hfmem, hlook, hne⟩ := findField_some hf
    exact Or.inl ⟨m, rfl, f, hfmem, t, hlook, hne, extract_of_find hf⟩
  | none =>
    cases hc : jLookup m "content" with
    | none => exact Or.inr (Or.inr (by rw [extractTextFromResult]; simp only [hf, hc]))
    | some j =>
      rcases j with _ | b | n | s | xs | fs
      · exact Or.inr (Or.inr (by rw [extractTextFromResult]; simp only [hf, hc]))
      · exact Or.inr (Or.inr (by rw [extractTextFromResult]; simp only [hf, hc]))
      · exact Or.inr (Or.inr (by rw [extractTextFromResult]; simp only [hf, hc]))
      · exact Or.inr (Or.inr (by rw [extractTextFromResult]; simp only [hf, hc]))
      case obj => exact Or.inr (Or.inr (by rw [extractTextFromResult]; simp only [hf, hc]))
      case arr =>
        rcases xs with _ | ⟨c0, rest⟩
        · exact Or.inr (Or.inr (by rw [extractTextFromResult]; simp only [hf, hc]))
        rcases c0 with _ | b2 | n2 | s2 | xs2 | cm
        · exact Or.inr (Or.inr (by rw [extractTextFromResult]; simp only [hf, hc]))
        · exact Or.inr (Or.inr (by rw [extractTextFromResult]; simp only [hf, hc]))
        · exact Or.inr (Or.inr (by rw [extractTextFromResult]; simp only [hf, hc]))
        · exact Or.inr (Or.inr (by rw [extractTextFromResult]; simp only [hf, hc]))
        · exact Or.inr (Or.inr (by rw [extractTextFromResult]; simp only [hf, hc]))
        case obj =>
          cases ht : jLookup cm "text" with
          | none => exact Or.inr (Or.inr (by rw [extractTextFromResult]; simp only [hf, hc, ht]))
          | some jt =>
            rcases jt with _ | b3 | n3 | t | xs3 | fs3
            · exact Or.inr (Or.inr (by rw [extractTextFromResult]; simp only [hf, hc, ht]))
            · exact Or.inr (Or.inr (by rw [extractTextFromResult]; simp only [hf, hc, ht]))
            · exact Or.inr (Or.inr (by rw [extractTextFromResult]; simp only [hf, hc, ht]))
            case str =>
              exact Or.inr (Or.inl ⟨m, cm, rest, t, rfl, hc, ht,
                by rw [extractTextFromResult]; simp only [hf, hc, ht]⟩)
            · exact Or.inr (Or.inr (by rw [extractTextFromResult]; simp only [hf, hc, ht]))
            · exact Or.inr (Or.inr (by rw [extractTextFromResult]; simp only [hf, hc, ht]))

lemma wrapInt64_id {m : Int} (h1 : -(2 ^ 63) ≤ m) (h2 : m < 2 ^ 63) : wrapInt64 m = m := by
  rw [wrapInt64]
  have e1 : (2 : Int) ^ 63 = 9223372036854775808 := by norm_num
  have e2 : (2 : Int) ^ 64 = 18446744073709551616 := by norm_num
  rw [e1] at h1 h2 ⊢
  rw [e2]
  omega

lemma idsAfter_arith (n : Nat) : ∀ (k : Int) (url sid : String), 0 < k → k + n ≤ 2 ^ 63 →
    idsAfter { BaseURL := url, nextID := k, sessionID := sid } n =
      (List.range n).map (fun (i : Nat) => k + (i : Int)) := by
  induction n with
  | zero => intro k url sid hk hn; rfl
  | succ n ih =>
    intro k url sid hk hn
    show k :: idsAfter { BaseURL := url, nextID := wrapInt64 (k + 1), sessionID := sid } n =
      (List.range (n + 1)).map (fun (i : Nat) => k + (i : Int))
    cases n with
    | zero => simp [idsAfter, List.range_succ]
    | succ n2 =>
      have hlt : (2 : Int) ^ 63 ≥ k + 1 + 1 := by
        have : ((n2 : Int) + 1 + 1) = ((n2 + 1 + 1 : Nat) : Int) := by push_cast; ring
        omega
      have hw : wrapInt64 (k + 1) = k + 1 := wrapInt64_id (by omega) (by omega)
      rw [hw, ih (k + 1) url sid (by omega) (by push_cast at hn ⊢; omega)]
      have hshift : (List.range (n2 + 1)).map (fun (i : Nat) => k + 1 + (i : Int)) =
          ((List.range (n2 + 1)).map Nat.succ).map (fun (i : Nat) => k + (i : Int)) := by
        rw [List.map_map]
        apply List.map_congr_left
        intro i _
        simp only [Function.comp]
        push_cast
        ring
      calc k :: (List.range (n2 + 1)).map (fun (i : Nat) => k + 1 + (i : Int))
          = k :: ((List.range (n2 + 1)).map Nat.succ).map (fun (i : Nat) => k + (i : Int)) := by
            rw [hshift]
        _ = (0 :: (List.range (n2 + 1)).map Nat.succ).map (fun (i : Nat) => k + (i : Int)) := by
            simp
        _ = (List.range (n2 + 1 + 1)).map (fun (i : Nat) => k + (i : Int)) := by
            rw [← List.range_succ_eq_map]

/-- C5: for a freshly constructed client the first assigned request id is
1, and over any sequence of sends (shorter than the 64-bit wrap-around
horizon) the assigned ids are exactly 1, 2, 3, ..., strictly increasing
and never reused. -/
theorem request_ids_monotone (baseURL : String) (n : Nat) (h : n ≤ 2 ^ 63 - 1) :
    idsAfter (NewMCPClient baseURL) n = (List.range n).map (fun (i : Nat) => 1 + (i : Int)) ∧
    List.Pairwise (fun a b => a < b) (idsAfter (NewMCPClient baseURL) n) ∧
    (idsAfter (NewMCPClient baseURL) n).Nodup ∧
    (0 < n → (idsAfter (NewMCPClient baseURL) n).head? = some 1) := by
  have e2 : (2 : Nat) ^ 63 = 9223372036854775808 := by norm_num
  have e3 : (2 : Int) ^ 63 = 9223372036854775808 := by norm_num
  have heq : idsAfter (NewMCPClient baseURL) n = (List.range n).map (fun (i : Nat) => 1 + (i : Int)) := by
    apply idsAfter_arith n 1 baseURL "" (by omega)
    rw [e3]
    rw [e2] at h
    omega
  have hpair : List.Pairwise (fun a b => a < b) (idsAfter (NewMCPClient baseURL) n) := by
    rw [heq, List.pairwise_map]
    exact (List.pairwise_lt_range n).imp (fun hab => by omega)
  refine ⟨heq, hpair, hpair.imp (fun hab => ne_of_lt hab), ?_⟩
  intro hn0
  rw [heq]
  cases n with
  | zero => omega
  | succ n2 => rw [List.range_succ_eq_map]; simp

/-- C5 witness: the first three assigned ids of a fresh client are
1, 2, 3. -/
theorem request_ids_monotone_witness :
    idsAfter (NewMCPClient "http://b") 3 = [1, 2, 3] ∧
    List.Pairwise (fun a b => a < b) (idsAfter (NewMCPClient "http://b") 3) ∧
    (idsAfter (NewMCPClient "http://b") 3).head? = some 1 := by
  obtain ⟨h1, h2, _, h4⟩ := request_ids_monotone "http://b" 3 (by norm_num)
  exact ⟨by rw [h1]; decide, h2, h4 (by norm_num)⟩

/-- C7: GatherInformation runs its three strategies in the fixed order
direct API, then MCP flow, then GET probe, short-circuiting on the first
success: a direct-API success is returned as is with no later-stage
requests; when the direct stage errors, the MCP flow runs next and its
success is final; when both error, the GET probe decides the outcome and
the request trace is the concatenation of the three stage traces in that
order.  When every direct endpoint yields a transport error or a non-200
status, the direct stage errors out. -/
theorem gather_strategy_order (oracle : Oracle) (c : MCPClient) (prompt model : String) :
    (∀ v, (tryDirectAPI oracle c prompt model).1 = .ok v →
      GatherInformation oracle c prompt model =
        (.ok v, c, (tryDirectAPI oracle c prompt model).2)) ∧
    (∀ msg v, (tryDirectAPI oracle c prompt model).1 = .error msg →
      (tryMCPFlow oracle c prompt model).1 = .ok v →
      GatherInformation oracle c prompt model =
        (.ok v, (tryMCPFlow oracle c prompt model).2.1,
         (tryDirectAPI oracle c prompt model).2 ++ (tryMCPFlow oracle c prompt model).2.2)) ∧
    (∀ msg msg2, (tryDirectAPI oracle c prompt model).1 = .error msg →
      (tryMCPFlow oracle c prompt model).1 = .error msg2 →
      GatherInformation oracle c prompt model =
        ((tryAlternativeEndpoints oracle (tryMCPFlow oracle c prompt model).2.1 prompt model).1,
         (tryMCPFlow oracle c prompt model).2.1,
         (tryDirectAPI oracle c prompt model).2 ++ (tryMCPFlow oracle c prompt model).2.2 ++
           (tryAlternativeEndpoints oracle (tryMCPFlow oracle c prompt model).2.1 prompt model).2)) ∧
    ((∀ e ∈ directEndpoints, noDirectHit (oracle (mkDirectRequest c prompt model e))) →
      (tryDirectAPI oracle c prompt model).1 = .error "direct API calls failed") := by
  refine ⟨?_, ?_, ?_, ?_⟩
  · intro v hv
    rw [GatherInformation]
    rcases hd : tryDirectAPI oracle c prompt model with ⟨rd, td⟩
    rw [hd] at hv
    simp at hv
    subst hv
    rfl
  · intro msg v hd1 hm1
    rw [GatherInformation]
    rcases hd : tryDirectAPI oracle c prompt model with ⟨rd, td⟩
    rw [hd] at hd1
    simp at hd1
    subst hd1
    rcases hmc : tryMCPFlow oracle c prompt model with ⟨rm, cm, tm⟩
    rw [hmc] at hm1
    simp at hm1
    subst hm1
    rfl
  · intro msg msg2 hd1 hm1
    rw [GatherInformation]
    rcases hd : tryDirectAPI oracle c prompt model with ⟨rd, td⟩
    rw [hd] at hd1
    simp at hd1
    subst hd1
    rcases hmc : tryMCPFlow oracle c prompt model with ⟨rm, cm, tm⟩
    rw [hmc] at hm1
    simp at hm1
    subst hm1
    rfl
  · intro hall
    have hskip := tryDirectLoop_skip oracle c prompt model directEndpoints [] hall
    rw [List.append_nil] at hskip
    rw [tryDirectAPI, hskip]
    rfl

/-- C7 witness: with the network fully down, the direct stage errors, the
MCP stage errors, and the overall run is decided by the GET probe, with
the three stage traces concatenated in order. -/
theorem gather_strategy_order_witness :
    GatherInformation oracleDown (NewMCPClient "http://b") "p" "m" =
      ((tryAlternativeEndpoints oracleDown
          (tryMCPFlow oracleDown (NewMCPClient "http://b") "p" "m").2.1 "p" "m").1,
       (tryMCPFlow oracleDown (NewMCPClient "http://b") "p" "m").2.1,
       (tryDirectAPI oracleDown (NewMCPClient "http://b") "p" "m").2 ++
         (tryMCPFlow oracleDown (NewMCPClient "http://b") "p" "m").2.2 ++
         (tryAlternativeEndpoints oracleDown
           (tryMCPFlow oracleDown (NewMCPClient "http://b") "p" "m").2.1 "p" "m").2) ∧
    (tryDirectAPI oracleDown (NewMCPClient "http://b") "p" "m").1 =
      .error "direct API calls failed" :=
  ⟨(gather_strategy_order oracleDown (NewMCPClient "http://b") "p" "m").2.2.1
      "direct API calls failed" "failed to initialize MCP connection: failed to send request"
      rfl rfl,
   (gather_strategy_order oracleDown (NewMCPClient "http://b") "p" "m").2.2.2
      (fun _ _ => trivial)⟩

lemma tryAltLoop_trace_mem (oracle : Oracle) (c : MCPClient) (es : List String)
    (q : HttpRequest) (hq : q ∈ (tryAltLoop oracle c es).2) :
    ∃ e ∈ es, q = mkAltRequest c e := by
  induction es with
  | nil => simp [tryAltLoop] at hq
  | cons e rest ih =>
    rw [tryAltLoop] at hq
    cases ho : oracle (mkAltRequest c e) with
    | none =>
      simp only [ho] at hq
      simp at hq
      rcases hq with rfl | hq2
      · exact ⟨e, List.mem_cons_self e rest, rfl⟩
      · obtain ⟨g, hg, hgq⟩ := ih hq2
        exact ⟨g, List.mem_cons_of_mem e hg, hgq⟩
    | some resp =>
      simp only [ho] at hq
      by_cases hs : resp.status = 200
      · rw [if_pos hs] at hq
        simp at hq
        exact ⟨e, List.mem_cons_self e rest, hq⟩
      · rw [if_neg hs] at hq
        simp at hq
        rcases hq with rfl | hq2
        · exact ⟨e, List.mem_cons_self e rest, rfl⟩
        · obtain ⟨g, hg, hgq⟩ := ih hq2
          exact ⟨g, List.mem_cons_of_mem e hg, hgq⟩

/-- C2 counterexample theorem: the first GET issued by
tryAlternativeEndpoints for the session-holding client carries
X-Session-ID but no Session-ID header. -/
theorem alt_requests_drop_second_session_header :
    clientC2.sessionID = "tok" ∧
    (tryAlternativeEndpoints (fun _ => none) clientC2 "p" "m").2.head? =
      some (mkAltRequest clientC2 ("/?" ++ altQueryString "p" "m")) ∧
    headerGet (mkAltRequest clientC2 ("/?" ++ altQueryString "p" "m")).headers "X-Session-ID" =
      "tok" ∧
    headerGet (mkAltRequest clientC2 ("/?" ++ altQueryString "p" "m")).headers "Session-ID" =
      "" :=
  ⟨rfl, rfl, rfl, rfl⟩

/-- C2 amended: once a session token is set on the client, every request
issued by the direct-API probe and by the JSON-RPC sender carries the
token in both the X-Session-ID and the Session-ID headers, while every
GET issued by the alternative-endpoint probe carries it only in
X-Session-ID (its Session-ID header is absent). -/
theorem session_header_attachment (oracle : Oracle) (c : MCPClient)
    (prompt model : String) (r : MCPRequest) (h : c.sessionID ≠ "") :
    (∀ q ∈ (tryDirectAPI oracle c prompt model).2,
        headerGet q.headers "X-Session-ID" = c.sessionID ∧
        headerGet q.headers "Session-ID" = c.sessionID) ∧
    (∀ q ∈ (sendRequest oracle c r).2,
        headerGet q.headers "X-Session-ID" = c.sessionID ∧
        headerGet q.headers "Session-ID" = c.sessionID) ∧
    (∀ q ∈ (tryAlternativeEndpoints oracle c prompt model).2,
        headerGet q.headers "X-Session-ID" = c.sessionID ∧
        headerGet q.headers "Session-ID" = "") := by
  have hsess : sessionHeaders c.sessionID =
      [("X-Session-ID", c.sessionID), ("Session-ID", c.sessionID)] := by
    rw [sessionHeaders, if_neg h]
  have hhead : headerGet (baseHeaders ++ sessionHeaders c.sessionID) "X-Session-ID" =
        c.sessionID ∧
      headerGet (baseHeaders ++ sessionHeaders c.sessionID) "Session-ID" = c.sessionID := by
    rw [hsess]
    exact ⟨rfl, rfl⟩
  refine ⟨?_, ?_, ?_⟩
  · intro q hq
    obtain ⟨e, _, rfl⟩ := tryDirectLoop_trace_mem oracle c prompt model directEndpoints q hq
    exact hhead
  · intro q hq
    rw [show (sendRequest oracle c r).2 = [mkRPCRequest c r] from rfl] at hq
    simp at hq
    subst hq
    exact hhead
  · intro q hq
    obtain ⟨e, _, rfl⟩ :=
      tryAltLoop_trace_mem oracle c (altEndpoints prompt model) q hq
    have halt : (mkAltRequest c e).headers = [("X-Session-ID", c.sessionID)] := by
      show (if c.sessionID = "" then [] else [("X-Session-ID", c.sessionID)]) = _
      rw [if_neg h]
    rw [halt]
    exact ⟨rfl, rfl⟩

/-- C2 amended witness: the header attachment at a concrete session-holding
client; the direct-API requests carry both headers. -/
theorem session_header_attachment_witness :
    headerGet (mkDirectRequest clientC2 "p" "m" "/api/chat").headers "X-Session-ID" = "tok" ∧
    headerGet (mkDirectRequest clientC2 "p" "m" "/api/chat").headers "Session-ID" = "tok" := by
  have h := (session_header_attachment (fun _ => none) clientC2 "p" "m"
      { jsonrpc := "2.0", id := 4, method := "initialize", params := .obj [] }
      (by decide)).1
  have hm : mkDirectRequest clientC2 "p" "m" "/api/chat" ∈
      (tryDirectAPI (fun _ => none) clientC2 "p" "m").2 := by
    rw [show (tryDirectAPI (fun _ => none) clientC2 "p" "m").2 =
      (directEndpoints.map (mkDirectRequest clientC2 "p" "m")) from rfl]
    exact List.mem_map_of_mem _ (by decide)
  exact h _ hm

lemma createSessionLoop_skip (oracle : Oracle) (c : MCPClient) (pre es : List String)
    (h : ∀ e ∈ pre, noSessionToken (oracle (mkSessionRequest c e))) :
    createSessionLoop oracle c (pre ++ es) =
      ((createSessionLoop oracle c es).1,
       pre.map (mkSessionRequest c) ++ (createSessionLoop oracle c es).2) := by
  induction pre with
  | nil => simp
  | cons e pre ih =>
    have he := h e (List.mem_cons_self e pre)
    have hrest := fun e2 h2 => h e2 (List.mem_cons_of_mem e h2)
    rw [List.cons_append, createSessionLoop]
    cases ho : oracle (mkSessionRequest c e) with
    | none => simp [ih hrest]
    | some resp =>
      rw [ho] at he
      have hs : sessionFromResponse resp = none := he
      simp [hs, ih hrest]

/-- C8: on a session-creation response with status 200 or 201, the token
is taken first from the body (a SessionResponse with non-empty sessionId),
then from the X-Session-ID header, then from a session_id/sessionId
cookie; and the endpoint loop of CreateSession stops at the first
endpoint that yields a token, setting exactly that token and issuing no
request to later endpoints. -/
theorem session_negotiation_priority :
    (∀ resp sid, (resp.status = 200 ∨ resp.status = 201) → bodyToken resp = some sid →
        sessionFromResponse resp = some sid) ∧
    (∀ resp, (resp.status = 200 ∨ resp.status = 201) → bodyToken resp = none →
        headerGet resp.headers "X-Session-ID" ≠ "" →
        sessionFromResponse resp = some (headerGet resp.headers "X-Session-ID")) ∧
    (∀ resp, (resp.status = 200 ∨ resp.status = 201) → bodyToken resp = none →
        headerGet resp.headers "X-Session-ID" = "" →
        sessionFromResponse resp = cookieSession resp.cookies) ∧
    (∀ (oracle : Oracle) (c : MCPClient) (pre : List String) (e : String)
        (post : List String) (resp : Response) (sid : String),
        sessionEndpoints = pre ++ e :: post →
        (∀ e2 ∈ pre, noSessionToken (oracle (mkSessionRequest c e2))) →
        oracle (mkSessionRequest c e) = some resp →
        sessionFromResponse resp = some sid →
        CreateSession oracle c =
          (.ok (), { c with sessionID := sid },
           pre.map (mkSessionRequest c) ++ [mkSessionRequest c e])) := by
  refine ⟨?_, ?_, ?_, ?_⟩
  · intro resp sid hok hbt
    rw [sessionFromResponse, if_pos hok]
    simp only [hbt]
  · intro resp hok hbt hh
    rw [sessionFromResponse, if_pos hok]
    simp only [hbt]
    rw [if_neg hh]
  · intro resp hok hbt hh
    rw [sessionFromResponse, if_pos hok]
    simp only [hbt]
    rw [if_pos hh]
  · intro oracle c pre e post resp sid hsplit hpre hresp htok
    rw [CreateSession, hsplit, createSessionLoop_skip oracle c pre (e :: post) hpre]
    rw [createSessionLoop]
    simp only [hresp, htok]

/-- C8 witness: the loop stops at the second endpoint, whose 200 response
carries the token in the header (the body yields none, so the header is
consulted next). -/
theorem session_negotiation_priority_witness :
    CreateSession oracleC8 (NewMCPClient "http://b") =
      (.ok (), { NewMCPClient "http://b" with sessionID := "H" },
       (["/session"].map (mkSessionRequest (NewMCPClient "http://b")) ++
        [mkSessionRequest (NewMCPClient "http://b") "/api/session"])) ∧
    sessionFromResponse respC8 = some (headerGet respC8.headers "X-Session-ID") := by
  constructor
  · apply session_negotiation_priority.2.2.2 oracleC8 (NewMCPClient "http://b")
      ["/session"] "/api/session" ["/sessions", "/create-session"] respC8 "H" rfl
    · intro e2 he2
      simp only [List.mem_singleton] at he2
      subst he2
      exact trivial
    · rfl
    · rfl
  · exact session_negotiation_priority.2.1 respC8 (Or.inl rfl) rfl (by decide)

/-- C3: tryMCPFlow returns an error on an empty tool list, but on a first
tool descriptor that is not an object, or that lacks a string name field,
the unchecked Go type assertions panic and abort the program instead of
returning an error. -/
theorem mcp_flow_tool_crash :
    (tryMCPFlow oracleC3empty (NewMCPClient "http://b") "p" "m").1 =
      .error "no tools available" ∧
    (tryMCPFlow oracleC3num (NewMCPClient "http://b") "p" "m").1 = .crash ∧
    (tryMCPFlow oracleC3noname (NewMCPClient "http://b") "p" "m").1 = .crash :=
  ⟨rfl, rfl, rfl⟩

end LBO
